import Mathlib

/-!
Shallow embedding of the gamehub-lite-worker request-mediation pipeline
(`src/index.ts`, plus the standalone copy of the signer in
`src/generateSignature.ts`), together with proofs about the claims on the
worker's behaviour.

Modelling conventions, fixed once here:

* JavaScript strings are Lean `String`s; all character-level operations are
  implemented over `String.data : List Char` so that every definition reduces
  definitionally (the worker only handles ASCII header names, token strings
  and JSON keys, where Lean's code-point ordering coincides with JavaScript's
  UTF-16 code-unit ordering).
* JSON values are the inductive `Jval`.  Numbers are restricted to integers:
  every numeric literal handled by the worker (page numbers, type codes,
  ids, counts) is integral.  JavaScript `undefined` is conflated with
  `Jval.null`: the worker only ever observes `undefined` through truthiness,
  strict comparison against JSON-derived values, or string coercion in
  branches no claim depends on.
* `JSON.parse` is modelled by `parseJson`, a fuel-based recursive-descent
  parser for the integral fragment of JSON (string escapes beyond `\"` and
  `\\` are rejected; JavaScript would accept more escapes, which only means
  the theorems below quantify over the bodies `parseJson` accepts).
  Duplicate object keys collapse exactly as in JavaScript: the first
  occurrence keeps its position, the last occurrence keeps its value.
* Exceptions thrown by the worker (`JSON.parse` failures, property reads on
  `null`, calling array methods on non-arrays) are modelled with
  `Except String`; the carried message is a model artefact, only the fact
  that an exception occurred is meaningful.
* The md5 helper lives in `src/md5.js`, which is not part of the mediation
  core; the spec only requires a 128-bit digest returned as lowercase hex.
  All definitions and theorems are therefore parametric in an arbitrary
  digest function `md5f : String → String`, which is strictly more general
  than any concrete model of it.
-/

namespace GH

/-! ### Character and string helpers (ASCII fragment of the JS built-ins) -/

/-- ASCII lowercasing of one character, the fragment of
`String.prototype.toLowerCase` the worker exercises (hex digests and header
names are ASCII). -/
def lowerChar (c : Char) : Char :=
  if 65 ≤ c.toNat ∧ c.toNat ≤ 90 then Char.ofNat (c.toNat + 32) else c

/-- `s.toLowerCase()` on ASCII strings. -/
def strLower (s : String) : String := ⟨s.data.map lowerChar⟩

/-- Whether `pat` occurs as a contiguous substring, i.e. `s.includes(pat)`. -/
def hasSub (pat : List Char) : List Char → Bool
  | [] => pat.isPrefixOf []
  | c :: rest => if pat.isPrefixOf (c :: rest) then true else hasSub pat rest

/-- `s.includes(pat)`. -/
def strContains (s pat : String) : Bool := hasSub pat.data s.data

/-- Replace the first occurrence of `pat` (non-empty in every use below, as
in `String.prototype.replace` with a plain-string pattern; `$`-patterns in
the replacement never occur in the worker's tokens). -/
def replaceFirstList (pat rep : List Char) : List Char → List Char
  | [] => []
  | c :: rest =>
    if pat.isPrefixOf (c :: rest) then rep ++ (c :: rest).drop pat.length
    else c :: replaceFirstList pat rep rest

/-- `s.replace(pat, rep)` with a plain-string pattern. -/
def strReplaceFirst (s pat rep : String) : String :=
  ⟨replaceFirstList pat.data rep.data s.data⟩

/-- `s.substring(0, n)`. -/
def strTake (s : String) (n : Nat) : String := ⟨s.data.take n⟩

/-- Lexicographic code-point comparison of character lists; on the ASCII
keys the worker signs this is exactly the UTF-16 code-unit comparison that
`Array.prototype.sort`'s default comparator performs. -/
def listKeyLe : List Char → List Char → Bool
  | [], _ => true
  | _ :: _, [] => false
  | a :: as, b :: bs =>
    if a.toNat < b.toNat then true
    else if b.toNat < a.toNat then false
    else listKeyLe as bs

/-- The default-comparator string order used by `sortedKeys.sort()`. -/
def keyLeP (a b : String) : Prop := listKeyLe a.data b.data = true

instance : DecidableRel keyLeP := fun a b => by
  unfold keyLeP; infer_instance

/-! ### JSON values -/

/-- JSON values as produced by `JSON.parse` in the worker's runtime (see the
module comment for the integral-number and undefined-as-null conventions). -/
inductive Jval where
  | null : Jval
  | bool (b : Bool) : Jval
  | num (n : Int) : Jval
  | str (s : String) : Jval
  | arr (elems : List Jval) : Jval
  | obj (fields : List (String × Jval)) : Jval

/-- Property read `fields[k]` on an object's own fields: first binding wins
(object field lists never contain duplicate keys, see `parseFields`). -/
def jget : List (String × Jval) → String → Option Jval
  | [], _ => none
  | (k', v') :: fs, k => if k' = k then some v' else jget fs k

/-- Property write `o[k] = v`: JavaScript assignment keeps the position of an
existing key and appends a fresh key at the end. -/
def jset : List (String × Jval) → String → Jval → List (String × Jval)
  | [], k, v => [(k, v)]
  | (k', v') :: fs, k, v =>
    if k' = k then (k, v) :: fs else (k', v') :: jset fs k v

/-- `delete o[k]`. -/
def jdelete (fs : List (String × Jval)) (k : String) : List (String × Jval) :=
  fs.filter (fun p => p.1 ≠ k)

/-- JavaScript truthiness of a JSON-derived value. -/
def truthy : Jval → Bool
  | .null => false
  | .bool b => b
  | .num n => n != 0
  | .str s => s != ""
  | .arr _ => true
  | .obj _ => true

def otruthy : Option Jval → Bool
  | none => false
  | some v => truthy v

/-- JavaScript strict equality (`===`) as the worker applies it to
JSON-derived values: primitives compare structurally; arrays and objects
obtained from different parses are distinct references, hence never
strictly equal. -/
def jsStrictEq : Jval → Jval → Bool
  | .null, .null => true
  | .bool a, .bool b => a == b
  | .num a, .num b => a == b
  | .str a, .str b => a == b
  | _, _ => false

mutual

/-- JavaScript string coercion (template literals and property keys). -/
def jsToString : Jval → String
  | .null => "null"
  | .bool true => "true"
  | .bool false => "false"
  | .num n => toString n
  | .str s => s
  | .arr xs => jsJoinArr xs
  | .obj _ => "[object Object]"

/-- `Array.prototype.toString`: elements joined with commas, null/undefined
elements rendering as the empty string. -/
def jsJoinArr : List Jval → String
  | [] => ""
  | [x] => jsElemString x
  | x :: y :: xs => jsElemString x ++ "," ++ jsJoinArr (y :: xs)

def jsElemString : Jval → String
  | .null => ""
  | .bool true => "true"
  | .bool false => "false"
  | .num n => toString n
  | .str s => s
  | .arr xs => jsJoinArr xs
  | .obj _ => "[object Object]"

end

/-- JSON string-literal escaping for the characters occurring in the
worker's payloads (other control characters never appear in them). -/
def escChar (c : Char) : String :=
  if c = '"' then "\\\""
  else if c = '\\' then "\\\\"
  else if c = '\n' then "\\n"
  else if c = '\t' then "\\t"
  else if c = '\r' then "\\r"
  else String.singleton c

def escString (s : String) : String := String.join (s.data.map escChar)

mutual

/-- `JSON.stringify` (no spacing argument, as the worker always calls it). -/
def Jval.stringify : Jval → String
  | .null => "null"
  | .bool true => "true"
  | .bool false => "false"
  | .num n => toString n
  | .str s => "\"" ++ escString s ++ "\""
  | .arr xs => "[" ++ stringifyElems xs ++ "]"
  | .obj fs => "\x7b" ++ stringifyFields fs ++ "\x7d"

def stringifyElems : List Jval → String
  | [] => ""
  | [x] => Jval.stringify x
  | x :: y :: xs => Jval.stringify x ++ "," ++ stringifyElems (y :: xs)

def stringifyFields : List (String × Jval) → String
  | [] => ""
  | [(k, v)] => "\"" ++ escString k ++ "\":" ++ Jval.stringify v
  | (k, v) :: f :: fs =>
    "\"" ++ escString k ++ "\":" ++ Jval.stringify v ++ "," ++ stringifyFields (f :: fs)

end

/-! ### The `JSON.parse` model -/

def isWs (c : Char) : Bool := c = ' ' || c = '\t' || c = '\n' || c = '\r'

def skipWs : List Char → List Char
  | [] => []
  | c :: cs => if isWs c then skipWs cs else c :: cs

/-- Body of a JSON string literal after the opening quote; handles the `\"`
and `\\` escapes, rejects the rest (see the module comment). -/
def parseStrBody : List Char → Option (String × List Char)
  | [] => none
  | '"' :: rest => some ("", rest)
  | '\\' :: '"' :: rest =>
    (parseStrBody rest).map (fun p => (⟨'"' :: p.1.data⟩, p.2))
  | '\\' :: '\\' :: rest =>
    (parseStrBody rest).map (fun p => (⟨'\\' :: p.1.data⟩, p.2))
  | '\\' :: _ => none
  | c :: rest =>
    if c = '"' ∨ c = '\\' then none
    else (parseStrBody rest).map (fun p => (⟨c :: p.1.data⟩, p.2))

def digitsVal (ds : List Char) : Nat :=
  ds.foldl (fun a c => a * 10 + (c.toNat - 48)) 0

/-- Whether the characters after a digit run would make the number
non-integral (fractions and exponents are outside the modelled domain). -/
def numCont : List Char → Bool
  | c :: _ => c = '.' || c = 'e' || c = 'E'
  | [] => false

/-- An integral JSON number literal (JSON's no-leading-zero rule included). -/
def parseNum (cs : List Char) : Option (Int × List Char) :=
  match cs with
  | '-' :: cs' =>
    let ds := cs'.takeWhile Char.isDigit
    let rest := cs'.dropWhile Char.isDigit
    match ds with
    | [] => none
    | '0' :: _ :: _ => none
    | _ => if numCont rest then none else some (-(digitsVal ds : Int), rest)
  | _ =>
    let ds := cs.takeWhile Char.isDigit
    let rest := cs.dropWhile Char.isDigit
    match ds with
    | [] => none
    | '0' :: _ :: _ => none
    | _ => if numCont rest then none else some ((digitsVal ds : Int), rest)

/-- Duplicate-key collapse of JavaScript object construction: a later
binding keeps the first occurrence's position and the later value. -/
def combineField (k : String) (v : Jval) (fs : List (String × Jval)) :
    List (String × Jval) :=
  match jget fs k with
  | some v' => (k, v') :: jdelete fs k
  | none => (k, v) :: fs

mutual

def parseVal : Nat → List Char → Option (Jval × List Char)
  | 0, _ => none
  | fuel + 1, cs =>
    match skipWs cs with
    | 'n' :: 'u' :: 'l' :: 'l' :: rest => some (.null, rest)
    | 't' :: 'r' :: 'u' :: 'e' :: rest => some (.bool true, rest)
    | 'f' :: 'a' :: 'l' :: 's' :: 'e' :: rest => some (.bool false, rest)
    | '"' :: rest => (parseStrBody rest).map (fun p => (.str p.1, p.2))
    | '[' :: rest =>
      (match skipWs rest with
       | ']' :: rest2 => some (.arr [], rest2)
       | cs2 => (parseElems fuel cs2).map (fun p => (.arr p.1, p.2)))
    | '\x7b' :: rest =>
      (match skipWs rest with
       | '\x7d' :: rest2 => some (.obj [], rest2)
       | cs2 => (parseFields fuel cs2).map (fun p => (.obj p.1, p.2)))
    | cs' => (parseNum cs').map (fun p => (.num p.1, p.2))

def parseElems : Nat → List Char → Option (List Jval × List Char)
  | 0, _ => none
  | fuel + 1, cs => do
    let (v, cs1) ← parseVal fuel cs
    match skipWs cs1 with
    | ',' :: cs2 => do
      let (vs, cs3) ← parseElems fuel cs2
      pure (v :: vs, cs3)
    | ']' :: cs2 => pure ([v], cs2)
    | _ => none

def parseFields : Nat → List Char → Option (List (String × Jval) × List Char)
  | 0, _ => none
  | fuel + 1, cs =>
    match skipWs cs with
    | '"' :: rest => do
      let (k, cs1) ← parseStrBody rest
      match skipWs cs1 with
      | ':' :: cs2 => do
        let (v, cs3) ← parseVal fuel cs2
        match skipWs cs3 with
        | ',' :: cs4 => do
          let (fs, cs5) ← parseFields fuel cs4
          pure (combineField k v fs, cs5)
        | '\x7d' :: cs4 => pure ([(k, v)], cs4)
        | _ => none
      | _ => none
    | _ => none

end

/-- `JSON.parse`: the whole input (up to trailing whitespace) must be one
JSON value. -/
def parseJson (s : String) : Option Jval :=
  match parseVal (2 * s.data.length + 2) s.data with
  | some (v, rest) => if (skipWs rest).isEmpty then some v else none
  | none => none

/-! ### The signer (`generateSignature`, identical in `src/index.ts` lines
16-21 and `src/generateSignature.ts` lines 9-16) -/

def GAMEHUB_SECRET_KEY : String := "all-egg-shell-y7ZatUDk"

/-- `generateSignature(params)`: keys minus `sign`, sorted by the default
string comparator, joined as `key=value` with `&`, secret appended, digest
lowercased.  `md5f` abstracts the digest (see the module comment). -/
def generateSignature (md5f : String → String) (params : List (String × Jval)) : String :=
  let sortedKeys := List.insertionSort keyLeP
    ((params.map Prod.fst).filter (fun k => k ≠ "sign"))
  let paramString := String.intercalate "&"
    (sortedKeys.map (fun key => key ++ "=" ++ jsToString ((jget params key).getD .null)))
  let signString := paramString ++ "&" ++ GAMEHUB_SECRET_KEY
  strLower (md5f signString)

/-! ### Requests, upstream collaborators, responses -/

/-- The parts of a `fetch`-API `Request` the worker reads.  `body` is the
request body's text, `""` when there is none (matching `request.text()` on a
bodyless request).  Header lookup is case-insensitive, query lookup is not. -/
structure Request where
  method : String
  path : String
  query : List (String × String)
  headers : List (String × String)
  body : String

def hGet : List (String × String) → String → Option String
  | [], _ => none
  | (n', v') :: hs, n =>
    if strLower n' = strLower n then some v' else hGet hs n

def hSet : List (String × String) → String → String → List (String × String)
  | [], n, v => [(n, v)]
  | (n', v') :: hs, n, v =>
    if strLower n' = strLower n then (n', v) :: hs else (n', v') :: hSet hs n v

/-- `url.searchParams.get(k)`: first value of the key, or null. -/
def qGet : List (String × String) → String → Option String
  | [], _ => none
  | (k', v') :: q, k => if k' = k then some v' else qGet q k

/-- Result of one upstream `fetch`: `ok` is `response.ok`, `text` the body. -/
structure UpstreamResp where
  ok : Bool
  status : Nat
  text : String

/-- The worker's environment: the two KV namespaces, the token-refresher,
and the remote services, each modelled as an oracle over what the worker
sends it.  `chinese` receives (method, path, headers, body); `news` and
`github` receive the URL path built by the worker.  `nowSec` is
`Math.floor(Date.now() / 1000)`. -/
structure Env where
  tokenStore : Option String
  refreshResp : UpstreamResp
  freeGames : Option String
  chinese : String → String → List (String × String) → String → UpstreamResp
  news : String → UpstreamResp
  github : String → UpstreamResp
  nowSec : Nat

inductive RespBody where
  | empty : RespBody
  | json (v : Jval) : RespBody
  | text (s : String) : RespBody
  | stream (s : String) : RespBody

/-- A worker `Response`: status plus body (the uniform CORS/no-cache headers
carry no claim-relevant information and are omitted). -/
structure Resp where
  status : Nat
  body : RespBody

/-! ### Token interception and request rewriting (lines 62-167) -/

/-- Reading a property of an arbitrary value (`v.k`): throws on
null/undefined, yields undefined on other non-objects. -/
def jsProp : Jval → String → Except String Jval
  | .null, _ => .error "TypeError: cannot read properties of null"
  | .obj fs, k => .ok ((jget fs k).getD .null)
  | _, _ => .ok .null

/-- Total property read used only where the base is known to be an object. -/
def jvalProp (t : Jval) (k : String) : Jval :=
  match t with
  | .obj fs => (jget fs k).getD .null
  | _ => .null

def authHasFake (req : Request) : Bool :=
  match hGet req.headers "Authorization" with
  | some a => strContains a "fake-token"
  | none => false

def tokenHeaderIsFake (req : Request) : Bool :=
  hGet req.headers "token" == some "fake-token"

def isJsonPost (req : Request) : Bool :=
  req.method == "POST" &&
    (match hGet req.headers "Content-Type" with
     | some ct => strContains ct "application/json"
     | none => false)

/-- Lines 70-85: detection of the placeholder token (`bodyText` is read only
for JSON POSTs). -/
def shouldReplaceToken (req : Request) : Bool :=
  authHasFake req || tokenHeaderIsFake req ||
    (isJsonPost req && strContains req.body "fake-token")

/-- Lines 89-115: KV read under `gamehub_token`, HTTP fallback to the token
refresher; when both yield nothing `realToken` stays undefined. -/
def resolveRealToken (env : Env) : Except String Jval :=
  match env.tokenStore with
  | some s =>
    match parseJson s with
    | none => .error "SyntaxError: JSON.parse (token record)"
    | some td => jsProp td "token"
  | none =>
    if env.refreshResp.ok then
      match parseJson env.refreshResp.text with
      | none => .error "SyntaxError: JSON.parse (token response)"
      | some td => jsProp td "token"
    else .ok .null

/-- Lines 134-141: overwrite `token`, recompute `sign` over the updated
fields, overwrite `sign`. -/
def rewriteBodyFields (md5f : String → String) (fs : List (String × Jval))
    (realToken : Jval) : List (String × Jval) :=
  let fs1 := jset fs "token" realToken
  jset fs1 "sign" (.str (generateSignature md5f fs1))

/-- Lines 121-129: the rewritten header set (replace the placeholder inside
`Authorization`, overwrite an exactly-placeholder `token` header). -/
def rewriteHeaders (req : Request) (t : String) : List (String × String) :=
  let h1 :=
    match hGet req.headers "Authorization" with
    | some a =>
      if strContains a "fake-token" then
        hSet req.headers "Authorization" (strReplaceFirst a "fake-token" t)
      else req.headers
    | none => req.headers
  if hGet req.headers "token" == some "fake-token" then hSet h1 "token" t
  else h1

/-- Lines 62-167: the token interception stage.  `.error` models an
exception escaping to the outermost catch (the only source in this stage is
`JSON.parse`, plus strict-mode property writes on primitives). -/
def rewriteStage (md5f : String → String) (env : Env) (req : Request) :
    Except String Request :=
  let bodyText := if isJsonPost req then req.body else ""
  if shouldReplaceToken req then
    match resolveRealToken env with
    | .error e => .error e
    | .ok realToken =>
      if truthy realToken then
        let h2 := rewriteHeaders req (jsToString realToken)
        if bodyText ≠ "" ∧ strContains bodyText "fake-token" then
          match parseJson bodyText with
          | none => .error "SyntaxError: JSON.parse (request body)"
          | some (.obj fs) =>
            .ok { req with
                  headers := h2,
                  body := Jval.stringify (.obj (rewriteBodyFields md5f fs realToken)) }
          | some (.arr xs) =>
            -- property writes on an array succeed but are invisible to
            -- JSON.stringify, so the forwarded body is unchanged
            .ok { req with headers := h2, body := Jval.stringify (.arr xs) }
          | some _ =>
            -- strict-mode (ES module) property write on null or a primitive
            .error "TypeError: cannot create property on a primitive"
        else if bodyText ≠ "" then
          .ok { req with headers := h2, body := bodyText }
        else
          .ok { req with headers := h2 }
      else .ok req
  else .ok req

/-! ### Numeric coercion and `Array.prototype.slice` -/

/-- JavaScript `ToNumber` on the values the worker feeds into arithmetic and
`slice` (NaN-producing strings are returned as 0, matching how `slice`
treats NaN indices; fractional or whitespace-padded numeric strings are
outside the modelled domain). -/
def jsToNumberN : Jval → Int
  | .null => 0
  | .bool true => 1
  | .bool false => 0
  | .num n => n
  | .str s =>
    (match parseNum s.data with
     | some (n, rest) => if rest.isEmpty then n else 0
     | none => 0)
  | .arr _ => 0
  | .obj _ => 0

/-- `l.slice(s, e)` with the ECMAScript clamping rules. -/
def jsSlice {α : Type} (l : List α) (s e : Int) : List α :=
  let len : Int := l.length
  let s' := if s < 0 then max (len + s) 0 else min s len
  let e' := if e < 0 then max (len + e) 0 else min e len
  (l.drop s'.toNat).take (e'.toNat - s'.toNat)

/-- `str.slice(s, e)` (strings also have `slice`, reachable when a stored
`card_list` is a string). -/
def jsSliceStr (s : String) (a b : Int) : String := ⟨jsSlice s.data a b⟩

/-! ### /card/getGameDetail (lines 173-274) -/

def resp400GameDetail : Resp :=
  ⟨400, .json (.obj [("code", .num 400), ("msg", .str "Missing app_id parameter"),
    ("time", .str ""), ("data", .null)])⟩

def resp405GameDetail : Resp :=
  ⟨405, .json (.obj [("code", .num 405), ("msg", .str "Method not allowed"),
    ("time", .str ""), ("data", .null)])⟩

/-- Lines 194-203: the GET→POST body, `app_id` first, then every other
query parameter in order (later duplicates overwrite). -/
def gameDetailBodyParams (appId : String) (query : List (String × String)) :
    List (String × Jval) :=
  query.foldl
    (fun acc kv => if kv.1 ≠ "app_id" then jset acc kv.1 (.str kv.2) else acc)
    [("app_id", Jval.str appId)]

/-- Lines 174-231: choose the upstream body and headers for
/card/getGameDetail, or answer early (400 on missing/empty `app_id` under
GET, 405 on other methods). -/
def gameDetailPrep (req : Request) : Except Resp (String × List (String × String)) :=
  if req.method = "GET" then
    match qGet req.query "app_id" with
    | none => .error resp400GameDetail
    | some appId =>
      if appId = "" then .error resp400GameDetail
      else
        .ok (Jval.stringify (.obj (gameDetailBodyParams appId req.query)),
             hSet req.headers "Content-Type" "application/json")
  else if req.method = "POST" then
    .ok (req.body, hSet req.headers "Content-Type" "application/json")
  else .error resp405GameDetail

/-- Lines 240-273: parse the upstream reply (500 envelope with a snippet on
parse failure), strip `recommend_game` / `card_line_data` from a truthy
`data`, return 200. -/
def gameDetailFinish (u : UpstreamResp) : Except String Resp :=
  match parseJson u.text with
  | none =>
    .ok ⟨500, .json (.obj [("code", .num 500),
      ("msg", .str ("Chinese server returned invalid response: " ++ strTake u.text 100)),
      ("time", .str ""), ("data", .null)])⟩
  | some .null => .error "TypeError: cannot read properties of null"
  | some (.obj fs) =>
    (match jget fs "data" with
     | some (.obj ds) =>
       let ds' := jdelete (jdelete ds "recommend_game") "card_line_data"
       .ok ⟨200, .json (.obj (jset fs "data" (.obj ds')))⟩
     | _ => .ok ⟨200, .json (.obj fs)⟩)
  | some v => .ok ⟨200, .json v⟩

def gameDetailHandler (env : Env) (req : Request) : Except String Resp :=
  match gameDetailPrep req with
  | .error r => .ok r
  | .ok (b, h) => gameDetailFinish (env.chinese "POST" "/card/getGameDetail" h b)

/-! ### /search/getGameList (lines 277-327) -/

/-- Line 297-299: `game.steam_appid && game.steam_appid !== "0" &&
game.steam_appid !== ""` (reading `steam_appid` of a null element throws
inside the filter callback). -/
def keepGame : Jval → Except String Bool
  | .null => .error "TypeError: cannot read properties of null"
  | .obj fs =>
    let v := (jget fs "steam_appid").getD .null
    .ok (truthy v && !jsStrictEq v (.str "0") && !jsStrictEq v (.str ""))
  | _ => .ok false

/-- `Array.prototype.filter` with a callback that can throw. -/
def filterE (p : Jval → Except String Bool) : List Jval → Except String (List Jval)
  | [] => .ok []
  | x :: xs => do
    let b ← p x
    let rest ← filterE p xs
    pure (if b then x :: rest else rest)

/-- Lines 316-319: the per-game entry of the rebuilt `all_game_ids`. -/
def gameIdEntry (g : Jval) : Jval :=
  .obj [("steam_app_id", jvalProp g "steam_appid"), ("game_id", jvalProp g "id")]

/-- Lines 292-321: filter `data.list` to Steam-only games, rebuild `total`
and `all_game_ids` when they are truthy. -/
def transformGameList : Jval → Except String Jval
  | .null => .error "TypeError: cannot read properties of null"
  | .obj fs =>
    (match jget fs "data" with
     | some (.obj ds) =>
       (match jget ds "list" with
        | some (.arr games) => do
          let kept ← filterE keepGame games
          let ds1 := jset ds "list" (.arr kept)
          let ds2 :=
            if otruthy (jget ds1 "total") then
              jset ds1 "total"
                (.arr [.obj [("classify_group_id", .num 0), ("count", .num kept.length)]])
            else ds1
          let ds3 :=
            if otruthy (jget ds2 "all_game_ids") then
              jset ds2 "all_game_ids" (.arr (kept.map gameIdEntry))
            else ds2
          pure (.obj (jset fs "data" (.obj ds3)))
        | some v =>
          if truthy v then .error "TypeError: list.filter is not a function"
          else .ok (.obj fs)
        | none => .ok (.obj fs))
     | _ => .ok (.obj fs))
  | v => .ok v

def searchGameListHandler (env : Env) (req : Request) : Except String Resp :=
  let u := env.chinese "POST" "/search/getGameList" req.headers req.body
  match parseJson u.text with
  | none => .error "SyntaxError: JSON.parse (search response)"
  | some rd => do
    let rd' ← transformGameList rd
    pure ⟨200, .json rd'⟩

/-! ### News endpoints (lines 330-395) -/

def newsListHandler (env : Env) (req : Request) : Except String Resp :=
  match parseJson req.body with
  | none => .error "SyntaxError: JSON.parse (news body)"
  | some body => do
    let pv ← jsProp body "page"
    let sv ← jsProp body "page_size"
    let page := if truthy pv then pv else .num 1
    let pageSize := if truthy sv then sv else .num 4
    let u := env.news
      ("/api/news/list?page=" ++ jsToString page ++ "&page_size=" ++ jsToString pageSize)
    if u.ok then
      match parseJson u.text with
      | none => .error "SyntaxError: JSON.parse (news response)"
      | some nd => pure ⟨200, .json nd⟩
    else
      pure ⟨200, .json (.obj [("code", .num 500), ("msg", .str "Failed to fetch news"),
        ("time", .str ""), ("data", .arr [])])⟩

def newsGuideDetailHandler (env : Env) (req : Request) : Except String Resp :=
  match parseJson req.body with
  | none => .error "SyntaxError: JSON.parse (news detail body)"
  | some body => do
    let idv ← jsProp body "id"
    if truthy idv then
      let u := env.news ("/api/news/detail/" ++ jsToString idv)
      if u.ok then
        match parseJson u.text with
        | none => .error "SyntaxError: JSON.parse (news detail response)"
        | some nd => pure ⟨200, .json nd⟩
      else
        pure ⟨404, .json (.obj [("code", .num 404), ("msg", .str "News not found"),
          ("time", .str ""), ("data", .null)])⟩
    else
      pure ⟨400, .json (.obj [("code", .num 400), ("msg", .str "Missing id parameter"),
        ("time", .str ""), ("data", .null)])⟩

/-! ### /card/getIndexList (lines 397-460) -/

def indexListEmptyResp (env : Env) : Resp :=
  ⟨200, .json (.obj [("code", .num 201),
    ("msg", .str "No free games available at the moment, please try again later"),
    ("data", .arr []), ("time", .str (toString env.nowSec))])⟩

def indexList500 (env : Env) : Resp :=
  ⟨500, .json (.obj [("code", .num 500), ("msg", .str "Internal server error"),
    ("data", .arr []), ("time", .str (toString env.nowSec))])⟩

/-- Lines 435-438: `{...topic, card_list: topic.card_list.slice(0,
topic.display_card_num)}`; a missing end index copies the whole list, and a
topic without a sliceable `card_list` throws. -/
def sliceTopic : Jval → Except String Jval
  | .obj fs =>
    (match jget fs "card_list" with
     | some (.arr cards) =>
       let sliced :=
         match jget fs "display_card_num" with
         | none => cards
         | some v => jsSlice cards 0 (jsToNumberN v)
       .ok (.obj (jset fs "card_list" (.arr sliced)))
     | some (.str s) =>
       let sliced :=
         match jget fs "display_card_num" with
         | none => s
         | some v => jsSliceStr s 0 (jsToNumberN v)
       .ok (.obj (jset fs "card_list" (.str sliced)))
     | _ => .error "TypeError: card_list.slice is not a function")
  | _ => .error "TypeError: cannot read card_list"

def mapE (f : Jval → Except String Jval) : List Jval → Except String (List Jval)
  | [] => .ok []
  | x :: xs => do
    let y ← f x
    let ys ← mapE f xs
    pure (y :: ys)

/-- Lines 399-460: the free-games index, entirely inside the handler's own
try/catch — every thrown error becomes the 500 envelope. -/
def getIndexListHandler (env : Env) : Resp :=
  match env.freeGames with
  | none => indexListEmptyResp env
  | some cached =>
    match parseJson cached with
    | none => indexList500 env
    | some (.obj fs) =>
      (match jget fs "data" with
       | some (.arr topics) =>
         (match mapE sliceTopic topics with
          | .ok topics' => ⟨200, .json (.obj (jset fs "data" (.arr topics')))⟩
          | .error _ => indexList500 env)
       | _ => indexList500 env)
    | some _ => indexList500 env

/-! ### /card/more (lines 463-552) -/

def more400 (env : Env) : Resp :=
  ⟨400, .json (.obj [("code", .num 400), ("msg", .str "Missing topic ID"),
    ("time", .str (toString env.nowSec)), ("data", .null)])⟩

def more201 (env : Env) : Resp :=
  ⟨200, .json (.obj [("code", .num 201), ("msg", .str "No data available"),
    ("time", .str (toString env.nowSec)), ("data", .null)])⟩

def more404 (env : Env) : Resp :=
  ⟨404, .json (.obj [("code", .num 404), ("msg", .str "Topic not found"),
    ("time", .str (toString env.nowSec)), ("data", .null)])⟩

def more500 (env : Env) : Resp :=
  ⟨500, .json (.obj [("code", .num 500), ("msg", .str "Internal server error"),
    ("time", .str (toString env.nowSec)), ("data", .null)])⟩

/-- Line 499: `freeGamesData.data.find(t => t.id === topicId)` — reading
`id` of a null element throws inside the callback. -/
def findTopicE (tid : Jval) : List Jval → Except String (Option Jval)
  | [] => .ok none
  | t :: ts => do
    let idv ← jsProp t "id"
    if jsStrictEq idv tid then pure (some t) else findTopicE tid ts

/-- The field list of the `data` object of a successful /card/more response
(lines 522-533), given the topic, the echoed page values and the paginated
cards. -/
def moreDataFields (topic : Jval) (pageJ sizeJ cardList : Jval) :
    List (String × Jval) :=
  [("id", jvalProp topic "id"), ("title", jvalProp topic "title"),
    ("aspect_ratio", jvalProp topic "aspect_ratio"),
    ("fixed_card_size", jvalProp topic "fixed_card_size"),
    ("is_play_video", jvalProp topic "is_play_video"),
    ("page", pageJ), ("page_size", sizeJ),
    ("is_vertical", jvalProp topic "is_vertical"),
    ("is_text_outside", jvalProp topic "is_text_outside"),
    ("card_list", cardList)]

def moreData (topic : Jval) (pageJ sizeJ cardList : Jval) : Jval :=
  .obj (moreDataFields topic pageJ sizeJ cardList)

/-- Lines 463-552: /card/more, inside its own try/catch (any thrown error
becomes the 500 envelope). -/
def cardMoreHandler (env : Env) (req : Request) : Resp :=
  let r : Except String Resp :=
    match parseJson req.body with
    | none => .error "SyntaxError: JSON.parse (more body)"
    | some body => do
      let tid ← jsProp body "id"
      let pv ← jsProp body "page"
      let sv ← jsProp body "page_size"
      let pageJ := if truthy pv then pv else .num 1
      let sizeJ := if truthy sv then sv else .num 30
      if truthy tid then
        match env.freeGames with
        | none => pure (more201 env)
        | some cached =>
          match parseJson cached with
          | none => .error "SyntaxError: JSON.parse (free games)"
          | some (.obj fs) =>
            (match jget fs "data" with
             | some (.arr topics) => do
               let found ← findTopicE tid topics
               match found with
               | none => pure (more404 env)
               | some topic => do
                 let clv ← jsProp topic "card_list"
                 let startIdx := (jsToNumberN pageJ - 1) * jsToNumberN sizeJ
                 let endIdx := startIdx + jsToNumberN sizeJ
                 match clv with
                 | .arr cards =>
                   pure ⟨200, .json (.obj [("code", .num 0), ("msg", .str ""),
                     ("time", .str (toString env.nowSec)),
                     ("data", moreData topic pageJ sizeJ
                        (.arr (jsSlice cards startIdx endIdx)))])⟩
                 | .str s =>
                   pure ⟨200, .json (.obj [("code", .num 0), ("msg", .str ""),
                     ("time", .str (toString env.nowSec)),
                     ("data", moreData topic pageJ sizeJ
                        (.str (jsSliceStr s startIdx endIdx)))])⟩
                 | _ => .error "TypeError: card_list.slice is not a function"
             | _ => .error "TypeError: data.find is not a function")
          | some _ => .error "TypeError: cannot read data"
      else
        pure (more400 env)
  match r with
  | .ok resp => resp
  | .error _ => more500 env

/-! ### Plain proxies and static handlers (lines 555-670) -/

def executeScriptHandler (env : Env) (req : Request) : Except String Resp :=
  let u := env.chinese "POST" "/simulator/executeScript" req.headers req.body
  match parseJson u.text with
  | none => .error "SyntaxError: JSON.parse (executeScript response)"
  | some rd => .ok ⟨200, .json rd⟩

def checkUserTimerHandler (env : Env) (req : Request) : Except String Resp :=
  let u := env.chinese "POST" "/cloud/game/check_user_timer" req.headers req.body
  match parseJson u.text with
  | none => .error "SyntaxError: JSON.parse (check_user_timer response)"
  | some rd => .ok ⟨200, .json rd⟩

def baseInfoHandler (env : Env) : Except String Resp :=
  let u := env.github "/base/getBaseInfo"
  if u.ok then
    match parseJson u.text with
    | none => .error "SyntaxError: JSON.parse (base info)"
    | some d => .ok ⟨200, .json d⟩
  else
    .ok ⟨500, .json (.obj [("code", .num 500), ("msg", .str "Failed to fetch base info")])⟩

def dnsIpPoolHandler (env : Env) : Except String Resp :=
  let u := env.github "/game/getDnsIpPool"
  if u.ok then
    match parseJson u.text with
    | none => .error "SyntaxError: JSON.parse (DNS pool)"
    | some d => .ok ⟨200, .json d⟩
  else
    .ok ⟨500, .json (.obj [("code", .num 500), ("msg", .str "Failed to fetch DNS pool")])⟩

def steamHostHandler (env : Env) : Resp :=
  let u := env.github "/game/getSteamHost/index"
  if u.ok then ⟨200, .text u.text⟩
  else ⟨500, .json (.obj [("code", .num 500), ("msg", .str "Failed to fetch Steam hosts")])⟩

def gameIconHandler (env : Env) : Resp :=
  ⟨200, .json (.obj [("code", .num 200), ("msg", .str ""),
    ("time", .str (toString env.nowSec)), ("data", .arr [])])⟩

/-! ### /simulator/v2/getComponentList (lines 673-728) -/

/-- Lines 24-32: the type→manifest table.  JavaScript objects store these
numeric keys as strings, and the bracket access `TYPE_TO_MANIFEST[type]`
coerces the index with `ToPropertyKey` (string coercion). -/
def TYPE_TO_MANIFEST : List (String × String) :=
  [("1", "/components/box64_manifest"), ("2", "/components/drivers_manifest"),
   ("3", "/components/dxvk_manifest"), ("4", "/components/vkd3d_manifest"),
   ("5", "/components/games_manifest"), ("6", "/components/libraries_manifest"),
   ("7", "/components/steam_manifest")]

def manifestFor (v : Jval) : Option String :=
  (TYPE_TO_MANIFEST.find? (fun p => p.1 == jsToString v)).map (fun p => p.2)

/-- Lines 700-721: rename `components` to `list`, then paginate `list` and
set `page`/`pageSize`/`total` (upstream `total` echoed when truthy, else the
pre-slice length). -/
def componentTransform (pageJ sizeJ : Jval) : Jval → Except String Jval
  | .null => .error "TypeError: cannot read properties of null"
  | .obj fs =>
    let fs1 :=
      match jget fs "data" with
      | some (.obj ds) =>
        if otruthy (jget ds "components") then
          let ds1 := jset ds "list" ((jget ds "components").getD .null)
          jset fs "data" (.obj (jdelete ds1 "components"))
        else fs
      | _ => fs
    (match jget fs1 "data" with
     | some (.obj ds) =>
       (match jget ds "list" with
        | some (.arr items) =>
          let total :=
            if otruthy (jget ds "total") then (jget ds "total").getD .null
            else .num items.length
          let s := (jsToNumberN pageJ - 1) * jsToNumberN sizeJ
          let e := s + jsToNumberN sizeJ
          let ds4 := jset (jset (jset (jset ds "list" (.arr (jsSlice items s e)))
            "page" pageJ) "pageSize" sizeJ) "total" total
          .ok (.obj (jset fs1 "data" (.obj ds4)))
        | some (.str s0) =>
          let total :=
            if otruthy (jget ds "total") then (jget ds "total").getD .null
            else .num s0.data.length
          let s := (jsToNumberN pageJ - 1) * jsToNumberN sizeJ
          let e := s + jsToNumberN sizeJ
          let ds4 := jset (jset (jset (jset ds "list" (.str (jsSliceStr s0 s e)))
            "page" pageJ) "pageSize" sizeJ) "total" total
          .ok (.obj (jset fs1 "data" (.obj ds4)))
        | some v =>
          if truthy v then .error "TypeError: list.slice is not a function"
          else .ok (.obj fs1)
        | none => .ok (.obj fs1))
     | _ => .ok (.obj fs1))
  | v => .ok v

def componentListHandler (env : Env) (req : Request) : Except String Resp :=
  match parseJson req.body with
  | none => .error "SyntaxError: JSON.parse (component body)"
  | some body => do
    let tv ← jsProp body "type"
    let pv ← jsProp body "page"
    let sv ← jsProp body "page_size"
    let pageJ := if truthy pv then pv else .num 1
    let sizeJ := if truthy sv then sv else .num 10
    if !truthy tv || (manifestFor tv).isNone then
      pure ⟨400, .json (.obj [("code", .num 400), ("msg", .str "Invalid type parameter")])⟩
    else
      match manifestFor tv with
      | none =>
        pure ⟨400, .json (.obj [("code", .num 400), ("msg", .str "Invalid type parameter")])⟩
      | some mpath =>
        let u := env.github mpath
        if !u.ok then
          pure ⟨500, .json (.obj [("code", .num 500), ("msg", .str "Failed to fetch manifest")])⟩
        else
          match parseJson u.text with
          | none => .error "SyntaxError: JSON.parse (manifest)"
          | some md => do
            let md' ← componentTransform pageJ sizeJ md
            pure ⟨200, .json md'⟩

/-! ### Default proxy, dispatch and the outer boundary (lines 217-227,
730-756) -/

/-- Lines 730-749: transparent proxy to the static-content origin, status
and body passed through. -/
def githubProxy (env : Env) (req : Request) : Resp :=
  let u := env.github req.path
  ⟨u.status, .stream u.text⟩

/-- The path/method dispatch chain of lines 173-749, in source order. -/
def dispatchRequest (env : Env) (req : Request) : Except String Resp :=
  if req.path = "/card/getGameDetail" then gameDetailHandler env req
  else if req.path = "/search/getGameList" ∧ req.method = "POST" then
    searchGameListHandler env req
  else if req.path = "/card/getNewsList" ∧ req.method = "POST" then
    newsListHandler env req
  else if req.path = "/card/getNewsGuideDetail" ∧ req.method = "POST" then
    newsGuideDetailHandler env req
  else if req.path = "/card/getIndexList" ∧ (req.method = "POST" ∨ req.method = "GET") then
    .ok (getIndexListHandler env)
  else if req.path = "/card/more" ∧ req.method = "POST" then
    .ok (cardMoreHandler env req)
  else if req.path = "/simulator/executeScript" ∧ req.method = "POST" then
    executeScriptHandler env req
  else if req.path = "/base/getBaseInfo" ∧ req.method = "POST" then
    baseInfoHandler env
  else if req.path = "/cloud/game/check_user_timer" ∧ req.method = "POST" then
    checkUserTimerHandler env req
  else if req.path = "/game/getDnsIpPool" ∧ req.method = "POST" then
    dnsIpPoolHandler env
  else if req.path = "/game/getSteamHost" ∧ req.method = "GET" then
    .ok (steamHostHandler env)
  else if req.path = "/card/getGameIcon" ∧ req.method = "POST" then
    .ok (gameIconHandler env)
  else if req.path = "/simulator/v2/getComponentList" ∧ req.method = "POST" then
    componentListHandler env req
  else .ok (githubProxy env req)

/-- Lines 750-755: the outermost catch. -/
def outerCatch (r : Except String Resp) : Resp :=
  match r with
  | .ok resp => resp
  | .error msg =>
    ⟨500, .json (.obj [("code", .num 500), ("msg", .str ("Error: " ++ msg))])⟩

/-- Dispatch plus the outer error boundary. -/
def runDispatch (env : Env) (req : Request) : Resp :=
  outerCatch (dispatchRequest env req)

/-- The whole `fetch` entry point (lines 37-756): CORS preflight, token
interception, dispatch, outer catch. -/
def fetchHandler (md5f : String → String) (env : Env) (req : Request) : Resp :=
  if req.method = "OPTIONS" then ⟨200, .empty⟩
  else
    outerCatch (do
      let req' ← rewriteStage md5f env req
      dispatchRequest env req')

/-- The dispatch table's exact paths with their allowed methods
(lines 173-728). -/
def knownPaths : List (String × List String) :=
  [("/card/getGameDetail", ["GET", "POST"]),
   ("/search/getGameList", ["POST"]),
   ("/card/getNewsList", ["POST"]),
   ("/card/getNewsGuideDetail", ["POST"]),
   ("/card/getIndexList", ["POST", "GET"]),
   ("/card/more", ["POST"]),
   ("/simulator/executeScript", ["POST"]),
   ("/base/getBaseInfo", ["POST"]),
   ("/cloud/game/check_user_timer", ["POST"]),
   ("/game/getDnsIpPool", ["POST"]),
   ("/game/getSteamHost", ["GET"]),
   ("/card/getGameIcon", ["POST"]),
   ("/simulator/v2/getComponentList", ["POST"])]

/-! ### Helper lemmas -/

theorem jget_jset_self (fs : List (String × Jval)) (k : String) (v : Jval) :
    jget (jset fs k v) k = some v := by
  induction fs with
  | nil => simp [jget, jset]
  | cons p fs ih =>
    obtain ⟨k', v'⟩ := p
    by_cases h : k' = k
    · simp [jget, jset, h]
    · simp [jget, jset, h, ih]

theorem jget_jset_ne (fs : List (String × Jval)) {k k' : String} (v : Jval)
    (h : k' ≠ k) : jget (jset fs k v) k' = jget fs k' := by
  have h' : ¬ k = k' := fun e => h e.symm
  induction fs with
  | nil => simp [jget, jset, h']
  | cons p fs ih =>
    obtain ⟨k0, v0⟩ := p
    by_cases h0 : k0 = k
    · subst h0
      simp [jget, jset, h']
    · simp [jget, jset, h0, ih]

theorem hGet_hSet_ne (hs : List (String × String)) {n n' : String} (v : String)
    (h : strLower n' ≠ strLower n) : hGet (hSet hs n v) n' = hGet hs n' := by
  have h' : ¬ strLower n = strLower n' := fun e => h e.symm
  induction hs with
  | nil => simp [hGet, hSet, h']
  | cons p hs ih =>
    obtain ⟨n0, v0⟩ := p
    by_cases h0 : strLower n0 = strLower n
    · rw [show hSet ((n0, v0) :: hs) n v = (n0, v) :: hs from by simp [hSet, h0]]
      have e0 : ¬ strLower n0 = strLower n' := by rw [h0]; exact h'
      simp [hGet, e0]
    · simp [hGet, hSet, h0, ih]

theorem jsSlice_nonneg {α : Type} (l : List α) (s k : Int) (hs : 0 ≤ s) (hk : 0 ≤ k) :
    jsSlice l s (s + k) = (l.drop s.toNat).take k.toNat := by
  unfold jsSlice
  have h1 : ¬ s < 0 := by omega
  have h2 : ¬ s + k < 0 := by omega
  simp only [if_neg h1, if_neg h2]
  rcases le_or_lt (l.length : Int) s with h | h
  · have e1 : min s (l.length : Int) = (l.length : Int) := by omega
    have e2 : min (s + k) (l.length : Int) = (l.length : Int) := by omega
    rw [e1, e2]
    have d1 : l.drop ((l.length : Int)).toNat = [] := by
      simp
    have d2 : l.drop s.toNat = [] := by
      apply List.drop_eq_nil_of_le
      omega
    simp [d1, d2]
  · have e1 : min s (l.length : Int) = s := by omega
    rw [e1]
    rcases le_or_lt (s + k) (l.length : Int) with h3 | h3
    · have e2 : min (s + k) (l.length : Int) = s + k := by omega
      rw [e2]
      congr 1
      omega
    · have e2 : min (s + k) (l.length : Int) = (l.length : Int) := by omega
      rw [e2]
      have hlen : (l.drop s.toNat).length = l.length - s.toNat := by
        simp
      rw [List.take_of_length_le (by omega), List.take_of_length_le (by omega)]

/-- Injectivity of the code-point view of a character. -/
theorem char_toNat_inj {a b : Char} (h : a.toNat = b.toNat) : a = b :=
  Char.ext (UInt32.ext h)

theorem listKeyLe_total (a b : List Char) :
    listKeyLe a b = true ∨ listKeyLe b a = true := by
  induction a generalizing b with
  | nil => left; rfl
  | cons x xs ih =>
    cases b with
    | nil => right; rfl
    | cons y ys =>
      by_cases h1 : x.toNat < y.toNat
      · left; simp [listKeyLe, h1]
      · by_cases h2 : y.toNat < x.toNat
        · right; simp [listKeyLe, h2]
        · rcases ih ys with h | h
          · left; simp [listKeyLe, h1, h2, h]
          · right; simp [listKeyLe, h1, h2, h]

theorem listKeyLe_trans {a b c : List Char} (hab : listKeyLe a b = true)
    (hbc : listKeyLe b c = true) : listKeyLe a c = true := by
  induction a generalizing b c with
  | nil => rfl
  | cons x xs ih =>
    cases b with
    | nil => simp [listKeyLe] at hab
    | cons y ys =>
      cases c with
      | nil => simp [listKeyLe] at hbc
      | cons z zs =>
        simp only [listKeyLe] at hab hbc ⊢
        by_cases h1 : x.toNat < y.toNat
        · by_cases h3 : y.toNat < z.toNat
          · simp [show x.toNat < z.toNat by omega]
          · by_cases h4 : z.toNat < y.toNat
            · simp [h3, h4] at hbc
            · simp [show x.toNat < z.toNat by omega]
        · by_cases h2 : y.toNat < x.toNat
          · simp [h1, h2] at hab
          · by_cases h3 : y.toNat < z.toNat
            · simp [show x.toNat < z.toNat by omega]
            · by_cases h4 : z.toNat < y.toNat
              · simp [h3, h4] at hbc
              · simp [h1, h2] at hab
                simp [h3, h4] at hbc
                simp [show ¬ x.toNat < z.toNat by omega,
                      show ¬ z.toNat < x.toNat by omega]
                exact ih hab hbc

theorem listKeyLe_antisymm {a b : List Char} (hab : listKeyLe a b = true)
    (hba : listKeyLe b a = true) : a = b := by
  induction a generalizing b with
  | nil =>
    cases b with
    | nil => rfl
    | cons y ys => simp [listKeyLe] at hba
  | cons x xs ih =>
    cases b with
    | nil => simp [listKeyLe] at hab
    | cons y ys =>
      simp only [listKeyLe] at hab hba
      by_cases h1 : x.toNat < y.toNat
      · have h2 : ¬ y.toNat < x.toNat := by omega
        simp [h1, h2] at hba
      · by_cases h2 : y.toNat < x.toNat
        · simp [h1, h2] at hab
        · simp [h1, h2] at hab hba ⊢
          exact ⟨char_toNat_inj (by omega), ih hab hba⟩

instance : IsTotal String keyLeP :=
  ⟨fun a b => listKeyLe_total a.data b.data⟩

instance : IsTrans String keyLeP :=
  ⟨fun _ _ _ => listKeyLe_trans⟩

instance : IsAntisymm String keyLeP :=
  ⟨fun a b h1 h2 => by
    cases a; cases b
    exact congrArg String.mk (listKeyLe_antisymm h1 h2)⟩

/-- First-binding lookup is invariant under permutation of an object's
fields when the keys are distinct. -/
theorem jget_perm : ∀ {p q : List (String × Jval)}, p.Perm q →
    (p.map Prod.fst).Nodup → ∀ k, jget p k = jget q k := by
  intro p q hperm
  induction hperm with
  | nil => intro _ _; rfl
  | cons x h ih =>
    intro hnd k
    obtain ⟨k', v'⟩ := x
    by_cases hk : k' = k
    · simp [jget, hk]
    · simp only [jget, if_neg hk]
      exact ih (by simpa using hnd.of_cons) k
  | swap x y l =>
    intro hnd k
    obtain ⟨kx, vx⟩ := x
    obtain ⟨ky, vy⟩ := y
    have hne : ky ≠ kx := by
      simp only [List.map_cons, List.nodup_cons, List.mem_cons] at hnd
      exact fun e => hnd.1 (Or.inl e)
    by_cases hky : ky = k
    · subst hky
      have hne' : ¬ kx = ky := fun e => hne e.symm
      simp [jget, hne']
    · by_cases hkx : kx = k
      · simp [jget, hkx, hky]
      · simp [jget, hkx, hky]
  | trans h1 h2 ih1 ih2 =>
    intro hnd k
    rw [ih1 hnd k, ih2 ((h1.map Prod.fst).nodup_iff.mp hnd) k]

/-! ### Concrete fixtures used by witnesses and counterexamples -/

/-- Digest stand-in for concrete witnesses (the theorems themselves are
parametric in the digest function). -/
def idDigest : String → String := fun s => s

/-- Environment with a populated token store and benign upstreams. -/
def envTok : Env :=
  { tokenStore := some "\x7b\"token\":\"realtok\"\x7d"
    refreshResp := ⟨false, 500, ""⟩
    freeGames := none
    chinese := fun _ _ _ _ => ⟨true, 200, "\x7b\"code\":0\x7d"⟩
    news := fun _ => ⟨true, 200, "\x7b\"code\":0\x7d"⟩
    github := fun _ => ⟨true, 200, "gh-body"⟩
    nowSec := 1760000000 }

/-- Environment whose token store is empty and whose refresher is down. -/
def envBare : Env := { envTok with tokenStore := none }

/-- A free-games store with one 7-card topic (id 9). -/
def sevenTopics : String :=
  "\x7b\"data\":[\x7b\"id\":9,\"title\":\"t\",\"card_list\":[1,2,3,4,5,6,7],\"display_card_num\":6\x7d]\x7d"

def envSeven : Env := { envTok with freeGames := some sevenTopics }

/-- A /card/more request for topic 9 at the given page with page_size 3. -/
def reqMoreP (p : Int) : Request :=
  { method := "POST", path := "/card/more", query := [], headers := []
    body := "\x7b\"id\":9,\"page\":" ++ toString p ++ ",\"page_size\":3\x7d" }

/-! ### C8 -/

/-- C8: two parameter maps holding the same key/value bindings (distinct
keys) in any insertion orders are signed to identical digests. -/
theorem generateSignature_order_independent (md5f : String → String)
    {p q : List (String × Jval)} (hperm : p.Perm q)
    (hnd : (p.map Prod.fst).Nodup) :
    generateSignature md5f p = generateSignature md5f q := by
  have hval : ∀ k1, jget p k1 = jget q k1 := jget_perm hperm hnd
  have hkeys :
      List.insertionSort keyLeP ((p.map Prod.fst).filter (fun k1 => k1 ≠ "sign")) =
        List.insertionSort keyLeP ((q.map Prod.fst).filter (fun k1 => k1 ≠ "sign")) := by
    refine List.eq_of_perm_of_sorted ?_
      (List.sorted_insertionSort _ _) (List.sorted_insertionSort _ _)
    exact ((List.perm_insertionSort _ _).trans
      ((hperm.map Prod.fst).filter _)).trans (List.perm_insertionSort _ _).symm
  simp only [generateSignature, hval, hkeys]

/-- Witness for C8 at the spec's own example `{a:1,b:2}` vs `{b:2,a:1}`. -/
theorem generateSignature_order_independent_witness :
    generateSignature idDigest [("a", .num 1), ("b", .num 2)] =
      generateSignature idDigest [("b", .num 2), ("a", .num 1)] :=
  generateSignature_order_independent idDigest
    (List.Perm.swap ("b", Jval.num 2) ("a", Jval.num 1) [])
    (by simp)

/-! ### C9 -/

/-- C9: a request carrying the placeholder nowhere — not in the
Authorization header, not as the token header's exact value, and not as a
substring of a JSON POST body — passes the rewrite stage unchanged. -/
theorem rewrite_identity_without_placeholder (md5f : String → String)
    (env : Env) (req : Request)
    (hauth : authHasFake req = false)
    (htok : tokenHeaderIsFake req = false)
    (hbody : isJsonPost req = true → strContains req.body "fake-token" = false) :
    rewriteStage md5f env req = .ok req := by
  have hdetect : shouldReplaceToken req = false := by
    unfold shouldReplaceToken
    rw [hauth, htok]
    simp only [Bool.false_or]
    cases hj : isJsonPost req
    · simp
    · simp [hbody hj]
  unfold rewriteStage
  simp [hdetect]

/-- Witness for C9: a JSON POST whose headers and body are placeholder-free
is left untouched. -/
theorem rewrite_identity_without_placeholder_witness :
    rewriteStage idDigest envTok
      { method := "POST", path := "/search/getGameList", query := []
        headers := [("Authorization", "Bearer real-tok"), ("Content-Type", "application/json")]
        body := "\x7b\"kw\":\"mario\"\x7d" } =
    .ok { method := "POST", path := "/search/getGameList", query := []
          headers := [("Authorization", "Bearer real-tok"), ("Content-Type", "application/json")]
          body := "\x7b\"kw\":\"mario\"\x7d" } :=
  rewrite_identity_without_placeholder idDigest envTok _ rfl rfl (fun _ => rfl)

/-! ### C3 -/

/-- C3: when the placeholder is detected but the shared store is empty and
the remote token fetch fails, the worker does not throw: the rewrite is a
no-op and the original request is dispatched unmodified. -/
theorem tokenResolutionFailure_noop (md5f : String → String) (env : Env)
    (req : Request)
    (hdetect : shouldReplaceToken req = true)
    (hstore : env.tokenStore = none)
    (hremote : env.refreshResp.ok = false) :
    rewriteStage md5f env req = .ok req ∧
      (req.method ≠ "OPTIONS" → fetchHandler md5f env req = runDispatch env req) := by
  have hres : resolveRealToken env = .ok .null := by
    unfold resolveRealToken
    rw [hstore, hremote]
    simp
  have h1 : rewriteStage md5f env req = .ok req := by
    unfold rewriteStage
    simp [hdetect, hres, truthy]
  refine ⟨h1, fun hm => ?_⟩
  unfold fetchHandler runDispatch
  rw [if_neg hm]
  simp only [h1]
  rfl

/-- Witness for C3: a placeholder-bearing request against an empty store and
a failing refresher is forwarded as-is to the dispatcher (here the default
static-content proxy). -/
theorem tokenResolutionFailure_noop_witness :
    rewriteStage idDigest envBare
      { method := "POST", path := "/some/unknown", query := []
        headers := [("token", "fake-token"), ("Content-Type", "application/json")]
        body := "\x7b\"token\":\"fake-token\"\x7d" } =
    .ok { method := "POST", path := "/some/unknown", query := []
          headers := [("token", "fake-token"), ("Content-Type", "application/json")]
          body := "\x7b\"token\":\"fake-token\"\x7d" } ∧
    fetchHandler idDigest envBare
      { method := "POST", path := "/some/unknown", query := []
        headers := [("token", "fake-token"), ("Content-Type", "application/json")]
        body := "\x7b\"token\":\"fake-token\"\x7d" } = ⟨200, .stream "gh-body"⟩ := by
  have h := tokenResolutionFailure_noop idDigest envBare
    { method := "POST", path := "/some/unknown", query := []
      headers := [("token", "fake-token"), ("Content-Type", "application/json")]
      body := "\x7b\"token\":\"fake-token\"\x7d" } rfl rfl rfl
  refine ⟨h.1, ?_⟩
  rw [h.2 (by decide)]
  rfl

/-! ### C1 -/

/-- C1: a JSON POST whose body contains the placeholder, when a real token
`T` was resolved, is forwarded with the original object's `token` field set
to `T` and its `sign` field set to the lowercase digest of the `key=value`
joining (sorted keys, `sign` excluded) of the updated fields followed by
`&` and the shared secret. -/
theorem tokenBodyRewrite_resigns (md5f : String → String) (env : Env)
    (req : Request) (fields : List (String × Jval)) (T : String)
    (hjson : isJsonPost req = true)
    (hfake : strContains req.body "fake-token" = true)
    (hparse : parseJson req.body = some (.obj fields))
    (htok : resolveRealToken env = .ok (.str T))
    (hT : T ≠ "") :
    ∃ hs, rewriteStage md5f env req = .ok
      { req with
        headers := hs,
        body := Jval.stringify (.obj
          (jset (jset fields "token" (.str T)) "sign" (.str (strLower (md5f
            (String.intercalate "&"
              ((List.insertionSort keyLeP
                  (((jset fields "token" (.str T)).map Prod.fst).filter
                    (fun k1 => k1 ≠ "sign"))).map
                (fun key => key ++ "=" ++
                  jsToString ((jget (jset fields "token" (.str T)) key).getD .null)))
            ++ "&" ++ GAMEHUB_SECRET_KEY))))))} := by
  have hdetect : shouldReplaceToken req = true := by
    unfold shouldReplaceToken
    simp [hjson, hfake]
  have hne : req.body ≠ "" := by
    intro h0
    rw [h0] at hfake
    exact absurd hfake (by decide)
  have htr : truthy (Jval.str T) = true := by simp [truthy, hT]
  refine ⟨rewriteHeaders req (jsToString (.str T)), ?_⟩
  unfold rewriteStage
  simp only [hjson, if_true, ite_true, hdetect, htok, htr]
  rw [if_pos ⟨hne, hfake⟩, hparse]
  rfl

/-- Witness for C1 at the spec's end-to-end example: the placeholder body
with token `realtok` is forwarded with the re-signed body whose `sign` is
the (here: identity) digest of
`app_id=585690&time=1760032301893&token=realtok&<secret>`, lowercased. -/
theorem tokenBodyRewrite_resigns_witness :
    ∃ hs, rewriteStage idDigest envTok
      { method := "POST", path := "/card/getGameDetail", query := []
        headers := [("Content-Type", "application/json")]
        body := "\x7b\"token\":\"fake-token\",\"sign\":\"x\",\"time\":\"1760032301893\",\"app_id\":\"585690\"\x7d" } =
    .ok { method := "POST", path := "/card/getGameDetail", query := []
          headers := hs
          body := "\x7b\"token\":\"realtok\",\"sign\":\"app_id=585690&time=1760032301893&token=realtok&all-egg-shell-y7zatudk\",\"time\":\"1760032301893\",\"app_id\":\"585690\"\x7d" } := by
  obtain ⟨hs, h⟩ := tokenBodyRewrite_resigns idDigest envTok
    { method := "POST", path := "/card/getGameDetail", query := []
      headers := [("Content-Type", "application/json")]
      body := "\x7b\"token\":\"fake-token\",\"sign\":\"x\",\"time\":\"1760032301893\",\"app_id\":\"585690\"\x7d" }
    [("token", .str "fake-token"), ("sign", .str "x"),
     ("time", .str "1760032301893"), ("app_id", .str "585690")]
    "realtok" rfl rfl rfl rfl (by decide)
  exact ⟨hs, by rw [h]; rfl⟩

/-! ### C2 -/

/-- C2 (amended): when a JSON POST body contains the placeholder but does
not parse, and a truthy real token was resolved, the `JSON.parse` exception
escapes to the outermost catch: the worker answers HTTP 500 with a code-500
`Error: ...` envelope, and neither the headers-only rewrite nor the
dispatch happens. -/
theorem bodyParseFailure_aborts_request (md5f : String → String) (env : Env)
    (req : Request) (tok : Jval)
    (hjson : isJsonPost req = true)
    (hfake : strContains req.body "fake-token" = true)
    (hparse : parseJson req.body = none)
    (htok : resolveRealToken env = .ok tok)
    (htr : truthy tok = true) :
    ∃ m, fetchHandler md5f env req =
      ⟨500, .json (.obj [("code", .num 500), ("msg", .str ("Error: " ++ m))])⟩ := by
  have hmethod : req.method = "POST" := by
    have h0 := hjson
    unfold isJsonPost at h0
    simp only [Bool.and_eq_true, beq_iff_eq] at h0
    exact h0.1
  have hdetect : shouldReplaceToken req = true := by
    unfold shouldReplaceToken
    simp [hjson, hfake]
  have hne : req.body ≠ "" := by
    intro h0
    rw [h0] at hfake
    exact absurd hfake (by decide)
  have hrw : rewriteStage md5f env req =
      .error "SyntaxError: JSON.parse (request body)" := by
    unfold rewriteStage
    simp only [hjson, if_true, ite_true, hdetect, htok, htr]
    rw [if_pos ⟨hne, hfake⟩, hparse]
  refine ⟨"SyntaxError: JSON.parse (request body)", ?_⟩
  unfold fetchHandler
  rw [if_neg (by rw [hmethod]; decide)]
  simp only [hrw]
  rfl

/-- Witness for the amended C2 with a non-JSON placeholder body. -/
theorem bodyParseFailure_aborts_request_witness :
    ∃ m, fetchHandler idDigest envTok
      { method := "POST", path := "/whatever", query := []
        headers := [("Content-Type", "application/json")], body := "fake-token" } =
      ⟨500, .json (.obj [("code", .num 500), ("msg", .str ("Error: " ++ m))])⟩ :=
  bodyParseFailure_aborts_request idDigest envTok
    { method := "POST", path := "/whatever", query := []
      headers := [("Content-Type", "application/json")], body := "fake-token" }
    (.str "realtok") rfl rfl rfl rfl rfl

/-- Counterexample to C2 as stated: for the unparseable placeholder body
`fake-token` (with a real token available) the worker's answer is the outer
500 error envelope, not the dispatch of the headers-rewritten request — the
dispatcher would have proxied this path with status 200. -/
theorem bodyParseFailure_not_dispatched_cex :
    fetchHandler idDigest envTok
      { method := "POST", path := "/whatever", query := []
        headers := [("Content-Type", "application/json")], body := "fake-token" } =
      ⟨500, .json (.obj [("code", .num 500),
        ("msg", .str "Error: SyntaxError: JSON.parse (request body)")])⟩ ∧
    runDispatch envTok
      { method := "POST", path := "/whatever", query := []
        headers := [("Content-Type", "application/json")], body := "fake-token" } =
      ⟨200, .stream "gh-body"⟩ :=
  ⟨rfl, rfl⟩

/-! ### C4 -/

/-- C4 (amended): a request whose path is in the dispatch table but whose
method is not allowed there gets the 405 envelope only on
/card/getGameDetail; on every other known path it falls through to the
static-content proxy. -/
theorem methodMismatch_dispatch (env : Env) (req : Request) (ms : List String)
    (hk : (req.path, ms) ∈ knownPaths) (hm : req.method ∉ ms) :
    dispatchRequest env req =
      .ok (if req.path = "/card/getGameDetail" then resp405GameDetail
           else githubProxy env req) := by
  simp only [knownPaths, List.mem_cons, List.not_mem_nil, or_false,
    Prod.mk.injEq] at hk
  rcases hk with ⟨hp, hms⟩ | ⟨hp, hms⟩ | ⟨hp, hms⟩ | ⟨hp, hms⟩ | ⟨hp, hms⟩ |
    ⟨hp, hms⟩ | ⟨hp, hms⟩ | ⟨hp, hms⟩ | ⟨hp, hms⟩ | ⟨hp, hms⟩ | ⟨hp, hms⟩ |
    ⟨hp, hms⟩ | ⟨hp, hms⟩ <;>
      subst hms <;>
      simp only [List.mem_cons, List.not_mem_nil, or_false] at hm <;>
      push_neg at hm <;>
      simp [dispatchRequest, hp, gameDetailHandler, gameDetailPrep, hm]

/-- Witness for the amended C4: `PUT /card/more` (survives as proxy) and
`DELETE /card/getGameDetail` (405), both through the theorem. -/
theorem methodMismatch_dispatch_witness :
    dispatchRequest envTok
      { method := "PUT", path := "/card/more", query := [], headers := [], body := "" } =
      .ok (githubProxy envTok
        { method := "PUT", path := "/card/more", query := [], headers := [], body := "" }) ∧
    dispatchRequest envTok
      { method := "DELETE", path := "/card/getGameDetail", query := [], headers := [], body := "" } =
      .ok resp405GameDetail := by
  constructor
  · have h := methodMismatch_dispatch envTok
      { method := "PUT", path := "/card/more", query := [], headers := [], body := "" }
      ["POST"] (by simp [knownPaths]) (by simp)
    simpa using h
  · have h := methodMismatch_dispatch envTok
      { method := "DELETE", path := "/card/getGameDetail", query := [], headers := [], body := "" }
      ["GET", "POST"] (by simp [knownPaths]) (by simp)
    simpa using h

/-- Counterexample to C4 as stated: `GET /search/getGameList` is a known
path with a disallowed method, yet the worker proxies it to the
static-content origin with that origin's status (200 here), not a 405. -/
theorem methodMismatch_not405_cex :
    fetchHandler idDigest envTok
      { method := "GET", path := "/search/getGameList", query := [], headers := [], body := "" } =
      ⟨200, .stream "gh-body"⟩ ∧
    (200 : Nat) ≠ 405 :=
  ⟨rfl, by decide⟩

/-- Reduction of an `Except` bind on a success value (do-notation helper). -/
theorem ok_bind {ε α β : Type} (a : α) (f : α → Except ε β) :
    (Except.ok a >>= f : Except ε β) = f a := rfl

/-! ### C10 -/

/-- C10: with the free-content store empty, /card/getIndexList (GET or
POST) answers HTTP 200 with a code-201 envelope and empty-array data, and
POST /card/more with a truthy topic id answers HTTP 200 with a code-201
envelope and null data. -/
theorem kvEmpty_code201 (env : Env) (req1 req2 : Request)
    (bf : List (String × Jval)) (idv : Jval)
    (hkv : env.freeGames = none)
    (hp1 : req1.path = "/card/getIndexList")
    (hm1 : req1.method = "POST" ∨ req1.method = "GET")
    (hp2 : req2.path = "/card/more") (hm2 : req2.method = "POST")
    (hbody : parseJson req2.body = some (.obj bf))
    (hid : jget bf "id" = some idv) (hidt : truthy idv = true) :
    dispatchRequest env req1 = .ok ⟨200, .json (.obj [("code", .num 201),
      ("msg", .str "No free games available at the moment, please try again later"),
      ("data", .arr []), ("time", .str (toString env.nowSec))])⟩ ∧
    dispatchRequest env req2 = .ok ⟨200, .json (.obj [("code", .num 201),
      ("msg", .str "No data available"),
      ("time", .str (toString env.nowSec)), ("data", .null)])⟩ := by
  constructor
  · simp [dispatchRequest, hp1, hm1, getIndexListHandler, hkv, indexListEmptyResp]
  · have hmore : cardMoreHandler env req2 = more201 env := by
      unfold cardMoreHandler
      rw [hbody]
      simp [jsProp, hid, hidt, hkv, more201, ok_bind]
      rfl
    simp [dispatchRequest, hp2, hm2, hmore, more201]

/-- Witness for C10 against the empty store. -/
theorem kvEmpty_code201_witness :
    dispatchRequest envTok
      { method := "GET", path := "/card/getIndexList", query := [("topic_type", "2")]
        headers := [], body := "" } =
      .ok ⟨200, .json (.obj [("code", .num 201),
        ("msg", .str "No free games available at the moment, please try again later"),
        ("data", .arr []), ("time", .str "1760000000")])⟩ ∧
    dispatchRequest envTok (reqMoreP 1) =
      .ok ⟨200, .json (.obj [("code", .num 201), ("msg", .str "No data available"),
        ("time", .str "1760000000"), ("data", .null)])⟩ := by
  have h := kvEmpty_code201 envTok
    { method := "GET", path := "/card/getIndexList", query := [("topic_type", "2")]
      headers := [], body := "" }
    (reqMoreP 1) [("id", .num 9), ("page", .num 1), ("page_size", .num 3)] (.num 9)
    rfl rfl (Or.inr rfl) rfl rfl rfl rfl (by decide)
  exact h

/-! ### C6 -/

/-- C6: after the Steam-only filter, the rebuilt `total` reports exactly the
filtered list's length and the rebuilt `all_game_ids` maps the filtered
list element-wise (same length, same order, element `i` built from filtered
item `i`). -/
theorem searchFilter_consistent (fs ds : List (String × Jval))
    (games kept ts ids0 : List Jval)
    (hdata : jget fs "data" = some (.obj ds))
    (hlist : jget ds "list" = some (.arr games))
    (hkept : filterE keepGame games = .ok kept)
    (htot : jget ds "total" = some (.arr ts))
    (hids : jget ds "all_game_ids" = some (.arr ids0)) :
    transformGameList (.obj fs) = .ok (.obj (jset fs "data" (.obj
      (jset (jset (jset ds "list" (.arr kept)) "total"
        (.arr [.obj [("classify_group_id", .num 0), ("count", .num kept.length)]]))
        "all_game_ids" (.arr (kept.map gameIdEntry)))))) ∧
    (kept.map gameIdEntry).length = kept.length ∧
    (∀ i : Nat, (kept.map gameIdEntry)[i]? = (kept[i]?).map gameIdEntry) := by
  refine ⟨?_, List.length_map _ _, fun i => List.getElem?_map _ _ _⟩
  have h1 : jget (jset ds "list" (.arr kept)) "total" = some (.arr ts) := by
    rw [jget_jset_ne ds (Jval.arr kept) (by decide), htot]
  have h2 : jget (jset (jset ds "list" (.arr kept)) "total"
      (.arr [.obj [("classify_group_id", .num 0), ("count", .num kept.length)]]))
      "all_game_ids" = some (.arr ids0) := by
    rw [jget_jset_ne _ _ (by decide), jget_jset_ne ds (Jval.arr kept) (by decide), hids]
  simp [transformGameList, hdata, hlist, hkept, ok_bind, h1, h2, otruthy, truthy]

/-- Witness for C6: of three upstream games only one has a usable
steam_appid; total reports 1 and all_game_ids has the one matching entry. -/
theorem searchFilter_consistent_witness :
    transformGameList (.obj [("code", .num 0), ("data", .obj
      [("list", .arr [.obj [("steam_appid", .str "0"), ("id", .num 1)],
                      .obj [("steam_appid", .str "620"), ("id", .num 2)],
                      .obj [("id", .num 3)]]),
       ("total", .arr [.obj [("classify_group_id", .num 0), ("count", .num 3)]]),
       ("all_game_ids", .arr [.obj [("steam_app_id", .str "0"), ("game_id", .num 1)],
                              .obj [("steam_app_id", .str "620"), ("game_id", .num 2)],
                              .obj [("steam_app_id", .null), ("game_id", .num 3)]])])]) =
    .ok (.obj [("code", .num 0), ("data", .obj
      [("list", .arr [.obj [("steam_appid", .str "620"), ("id", .num 2)]]),
       ("total", .arr [.obj [("classify_group_id", .num 0), ("count", .num 1)]]),
       ("all_game_ids", .arr [.obj [("steam_app_id", .str "620"), ("game_id", .num 2)]])])]) := by
  have h := searchFilter_consistent
    [("code", .num 0), ("data", .obj
      [("list", .arr [.obj [("steam_appid", .str "0"), ("id", .num 1)],
                      .obj [("steam_appid", .str "620"), ("id", .num 2)],
                      .obj [("id", .num 3)]]),
       ("total", .arr [.obj [("classify_group_id", .num 0), ("count", .num 3)]]),
       ("all_game_ids", .arr [.obj [("steam_app_id", .str "0"), ("game_id", .num 1)],
                              .obj [("steam_app_id", .str "620"), ("game_id", .num 2)],
                              .obj [("steam_app_id", .null), ("game_id", .num 3)]])])]
    [("list", .arr [.obj [("steam_appid", .str "0"), ("id", .num 1)],
                    .obj [("steam_appid", .str "620"), ("id", .num 2)],
                    .obj [("id", .num 3)]]),
     ("total", .arr [.obj [("classify_group_id", .num 0), ("count", .num 3)]]),
     ("all_game_ids", .arr [.obj [("steam_app_id", .str "0"), ("game_id", .num 1)],
                            .obj [("steam_app_id", .str "620"), ("game_id", .num 2)],
                            .obj [("steam_app_id", .null), ("game_id", .num 3)]])]
    [.obj [("steam_appid", .str "0"), ("id", .num 1)],
     .obj [("steam_appid", .str "620"), ("id", .num 2)],
     .obj [("id", .num 3)]]
    [.obj [("steam_appid", .str "620"), ("id", .num 2)]]
    [.obj [("classify_group_id", .num 0), ("count", .num 3)]]
    [.obj [("steam_app_id", .str "0"), ("game_id", .num 1)],
     .obj [("steam_app_id", .str "620"), ("game_id", .num 2)],
     .obj [("steam_app_id", .null), ("game_id", .num 3)]]
    rfl rfl rfl rfl rfl
  rw [h.1]
  rfl

/-! ### C7 -/

/-- The `app_id` seed of the synthesized body survives the query fold
(the fold never writes the `app_id` key). -/
theorem gameDetailBodyParams_appId (a : String) (q : List (String × String)) :
    jget (gameDetailBodyParams a q) "app_id" = some (.str a) := by
  unfold gameDetailBodyParams
  suffices h : ∀ acc : List (String × Jval), jget acc "app_id" = some (.str a) →
      jget (List.foldl
        (fun acc kv => if kv.1 ≠ "app_id" then jset acc kv.1 (.str kv.2) else acc)
        acc q) "app_id" = some (.str a) by
    exact h _ (by simp [jget])
  induction q with
  | nil => exact fun acc h0 => h0
  | cons kv q ih =>
    intro acc h0
    simp only [List.foldl_cons]
    apply ih
    by_cases hk : kv.1 ≠ "app_id"
    · rw [if_pos hk, jget_jset_ne _ _ (fun e => hk e.symm)]
      exact h0
    · rw [if_neg hk]
      exact h0

/-- A fold over queries that never mention `k1` leaves the `k1` binding of
the accumulator alone. -/
theorem gameDetailFold_no_key (k1 : String) :
    ∀ (q : List (String × String)) (acc : List (String × Jval)),
      (∀ v, (k1, v) ∉ q) →
      jget (List.foldl
        (fun acc kv => if kv.1 ≠ "app_id" then jset acc kv.1 (.str kv.2) else acc)
        acc q) k1 = jget acc k1 := by
  intro q
  induction q with
  | nil => exact fun acc _ => rfl
  | cons kv q ih =>
    intro acc hq
    have hne : k1 ≠ kv.1 := by
      intro e
      exact hq kv.2 (by rw [e]; exact List.mem_cons_self _ _)
    simp only [List.foldl_cons]
    rw [ih _ (fun v hv => hq v (List.mem_cons_of_mem _ hv))]
    by_cases hk : kv.1 ≠ "app_id"
    · rw [if_pos hk, jget_jset_ne _ _ hne]
    · rw [if_neg hk]

/-- Every non-`app_id` query parameter ends up in the synthesized body with
a value drawn from the query. -/
theorem gameDetailBodyParams_other {k1 : String}
    (hne : k1 ≠ "app_id") :
    ∀ (q : List (String × String)) (acc : List (String × Jval)),
      (∃ v1, (k1, v1) ∈ q) →
      ∃ v2, jget (List.foldl
        (fun acc kv => if kv.1 ≠ "app_id" then jset acc kv.1 (.str kv.2) else acc)
        acc q) k1 = some (.str v2) ∧ (k1, v2) ∈ q := by
  intro q
  induction q with
  | nil => rintro acc ⟨v1, h⟩; cases h
  | cons kv q ih =>
    rintro acc ⟨v1, hmem⟩
    by_cases hq : ∃ v, (k1, v) ∈ q
    · obtain ⟨v2, h2, hm2⟩ := ih _ hq
      exact ⟨v2, by simpa [List.foldl_cons] using h2, List.mem_cons_of_mem _ hm2⟩
    · push_neg at hq
      rcases List.mem_cons.mp hmem with he | hin
      · refine ⟨v1, ?_, by rw [he]; exact List.mem_cons_self _ _⟩
        simp only [List.foldl_cons]
        rw [gameDetailFold_no_key k1 q _ hq, ← he]
        simp [hne, jget_jset_self]
      · exact absurd hin (hq v1)

/-- C7 (amended): GET /card/getGameDetail with `app_id` absent or empty
answers 400; with a non-empty `app_id` the POST body is synthesized from
the query — `app_id` (as a string) first, plus every other query parameter
— and forwarded upstream as a POST carrying the request's headers with only
Content-Type overwritten. -/
theorem gameDetail_getToPost (env : Env) (req : Request) (a : String)
    (hm : req.method = "GET") :
    ((qGet req.query "app_id" = none ∨ qGet req.query "app_id" = some "") →
      gameDetailPrep req = .error resp400GameDetail) ∧
    (qGet req.query "app_id" = some a → a ≠ "" →
      gameDetailPrep req = .ok
        (Jval.stringify (.obj (gameDetailBodyParams a req.query)),
         hSet req.headers "Content-Type" "application/json") ∧
      jget (gameDetailBodyParams a req.query) "app_id" = some (.str a) ∧
      (∀ k1 v1, (k1, v1) ∈ req.query → k1 ≠ "app_id" →
        ∃ v2, jget (gameDetailBodyParams a req.query) k1 = some (.str v2) ∧
          (k1, v2) ∈ req.query) ∧
      (∀ n1, strLower n1 ≠ strLower "Content-Type" →
        hGet (hSet req.headers "Content-Type" "application/json") n1 =
          hGet req.headers n1) ∧
      gameDetailHandler env req = gameDetailFinish (env.chinese "POST"
        "/card/getGameDetail" (hSet req.headers "Content-Type" "application/json")
        (Jval.stringify (.obj (gameDetailBodyParams a req.query))))) := by
  constructor
  · intro h0
    unfold gameDetailPrep
    rw [if_pos hm]
    rcases h0 with h0 | h0
    · rw [h0]
    · rw [h0]
      simp
  · intro ha hae
    have hprep : gameDetailPrep req = .ok
        (Jval.stringify (.obj (gameDetailBodyParams a req.query)),
         hSet req.headers "Content-Type" "application/json") := by
      unfold gameDetailPrep
      rw [if_pos hm, ha]
      simp [hae]
    refine ⟨hprep, gameDetailBodyParams_appId a req.query, ?_, ?_, ?_⟩
    · intro k1 v1 hmem hke
      exact gameDetailBodyParams_other hke req.query _ ⟨v1, hmem⟩
    · intro n1 hn1
      exact hGet_hSet_ne req.headers _ hn1
    · unfold gameDetailHandler
      rw [hprep]

/-- Witness for C7 at `?app_id=8870&x=y` with auth headers present. -/
theorem gameDetail_getToPost_witness :
    gameDetailPrep
      { method := "GET", path := "/card/getGameDetail"
        query := [("app_id", "8870"), ("x", "y")]
        headers := [("Authorization", "Bearer T"), ("token", "T")], body := "" } =
      .ok ("\x7b\"app_id\":\"8870\",\"x\":\"y\"\x7d",
        [("Authorization", "Bearer T"), ("token", "T"),
         ("Content-Type", "application/json")]) ∧
    hGet [("Authorization", "Bearer T"), ("token", "T"),
      ("Content-Type", "application/json")] "Authorization" = some "Bearer T" := by
  have h := gameDetail_getToPost envTok
    { method := "GET", path := "/card/getGameDetail"
      query := [("app_id", "8870"), ("x", "y")]
      headers := [("Authorization", "Bearer T"), ("token", "T")], body := "" }
    "8870" rfl
  have h2 := (h.2 rfl (by decide)).1
  refine ⟨?_, rfl⟩
  rw [h2]
  rfl

/-- Counterexample to C7 as stated: `?app_id=` has the parameter present
(empty), yet the worker answers 400 instead of synthesizing a POST body. -/
theorem gameDetail_emptyAppId_cex :
    qGet [("app_id", "")] "app_id" = some "" ∧
    gameDetailPrep
      { method := "GET", path := "/card/getGameDetail", query := [("app_id", "")]
        headers := [], body := "" } = .error resp400GameDetail :=
  ⟨rfl, rfl⟩

/-! ### C5 -/

/-- C5 (amended): both paginated endpoints return exactly the half-open
window `[(page-1)*page_size, page*page_size)` of the source sequence (an
out-of-range window is the empty slice, not an error), and echo `page` and
`page_size`; a `total` is echoed only by /simulator/v2/getComponentList
(upstream `total` when truthy, else the pre-slice length) — /card/more's
data object carries no `total` field. -/
theorem pagination_slice_window :
    (∀ (env : Env) (req : Request) (bf gf tf : List (String × Jval))
       (idv : Jval) (p sz : Int) (cached : String) (topics cards : List Jval),
      parseJson req.body = some (.obj bf) →
      jget bf "id" = some idv → truthy idv = true →
      jget bf "page" = some (.num p) → 1 ≤ p →
      jget bf "page_size" = some (.num sz) → 1 ≤ sz →
      env.freeGames = some cached →
      parseJson cached = some (.obj gf) →
      jget gf "data" = some (.arr topics) →
      findTopicE idv topics = .ok (some (.obj tf)) →
      jget tf "card_list" = some (.arr cards) →
      cardMoreHandler env req = ⟨200, .json (.obj [("code", .num 0), ("msg", .str ""),
        ("time", .str (toString env.nowSec)),
        ("data", .obj (moreDataFields (.obj tf) (.num p) (.num sz)
          (.arr ((cards.drop ((p - 1) * sz).toNat).take sz.toNat))))])⟩ ∧
      jget (moreDataFields (.obj tf) (.num p) (.num sz)
        (.arr ((cards.drop ((p - 1) * sz).toNat).take sz.toNat))) "page" =
          some (.num p) ∧
      jget (moreDataFields (.obj tf) (.num p) (.num sz)
        (.arr ((cards.drop ((p - 1) * sz).toNat).take sz.toNat))) "page_size" =
          some (.num sz) ∧
      jget (moreDataFields (.obj tf) (.num p) (.num sz)
        (.arr ((cards.drop ((p - 1) * sz).toNat).take sz.toNat))) "total" = none) ∧
    (∀ (env : Env) (req : Request) (bf md ds : List (String × Jval)) (tv : Jval)
       (p sz : Int) (mpath : String) (items : List Jval),
      parseJson req.body = some (.obj bf) →
      jget bf "type" = some tv → truthy tv = true → manifestFor tv = some mpath →
      jget bf "page" = some (.num p) → 1 ≤ p →
      jget bf "page_size" = some (.num sz) → 1 ≤ sz →
      (env.github mpath).ok = true →
      parseJson (env.github mpath).text = some (.obj md) →
      jget md "data" = some (.obj ds) →
      jget ds "components" = none →
      jget ds "list" = some (.arr items) →
      componentListHandler env req = .ok ⟨200, .json (.obj (jset md "data" (.obj
        (jset (jset (jset (jset ds "list"
            (.arr ((items.drop ((p - 1) * sz).toNat).take sz.toNat)))
          "page" (.num p)) "pageSize" (.num sz)) "total"
          (if otruthy (jget ds "total") then (jget ds "total").getD .null
           else .num items.length)))))⟩ ∧
      jget (jset (jset (jset (jset ds "list"
            (.arr ((items.drop ((p - 1) * sz).toNat).take sz.toNat)))
          "page" (.num p)) "pageSize" (.num sz)) "total"
          (if otruthy (jget ds "total") then (jget ds "total").getD .null
           else .num items.length)) "list" =
        some (.arr ((items.drop ((p - 1) * sz).toNat).take sz.toNat)) ∧
      jget (jset (jset (jset (jset ds "list"
            (.arr ((items.drop ((p - 1) * sz).toNat).take sz.toNat)))
          "page" (.num p)) "pageSize" (.num sz)) "total"
          (if otruthy (jget ds "total") then (jget ds "total").getD .null
           else .num items.length)) "page" = some (.num p) ∧
      jget (jset (jset (jset (jset ds "list"
            (.arr ((items.drop ((p - 1) * sz).toNat).take sz.toNat)))
          "page" (.num p)) "pageSize" (.num sz)) "total"
          (if otruthy (jget ds "total") then (jget ds "total").getD .null
           else .num items.length)) "pageSize" = some (.num sz) ∧
      jget (jset (jset (jset (jset ds "list"
            (.arr ((items.drop ((p - 1) * sz).toNat).take sz.toNat)))
          "page" (.num p)) "pageSize" (.num sz)) "total"
          (if otruthy (jget ds "total") then (jget ds "total").getD .null
           else .num items.length)) "total" =
        some (if otruthy (jget ds "total") then (jget ds "total").getD .null
          else .num items.length)) := by
  constructor
  · intro env req bf gf tf idv p sz cached topics cards
    intro hbody hid hidt hpage hp hsize hsz hkv hgf hdata hfind hcl
    have hpt : truthy (Jval.num p) = true := by
      simp [truthy]; omega
    have hst : truthy (Jval.num sz) = true := by
      simp [truthy]; omega
    have hsl : jsSlice cards ((p - 1) * sz) ((p - 1) * sz + sz) =
        (cards.drop ((p - 1) * sz).toNat).take sz.toNat :=
      jsSlice_nonneg cards _ _ (mul_nonneg (by omega) (by omega)) (by omega)
    refine ⟨?_, rfl, rfl, rfl⟩
    unfold cardMoreHandler
    rw [hbody]
    simp only [jsProp, hid, hpage, hsize, Option.getD_some, ok_bind, hpt, hst,
      hidt, if_true, ite_true, hkv, hgf, hdata, hfind, hcl, jsToNumberN, hsl,
      moreData]
    rfl
  · intro env req bf md ds tv p sz mpath items
    intro hbody htv htvt hmf hpage hp hsize hsz hok hmd hdata hcomp hlist
    have hpt : truthy (Jval.num p) = true := by
      simp [truthy]; omega
    have hst : truthy (Jval.num sz) = true := by
      simp [truthy]; omega
    have hsl : jsSlice items ((p - 1) * sz) ((p - 1) * sz + sz) =
        (items.drop ((p - 1) * sz).toNat).take sz.toNat :=
      jsSlice_nonneg items _ _ (mul_nonneg (by omega) (by omega)) (by omega)
    have hg1 : jget (jset (jset (jset ds "list"
          (.arr ((items.drop ((p - 1) * sz).toNat).take sz.toNat)))
        "page" (.num p)) "pageSize" (.num sz)) "total" = jget ds "total" := by
      rw [jget_jset_ne _ _ (by decide), jget_jset_ne _ _ (by decide),
        jget_jset_ne _ _ (by decide)]
    refine ⟨?_, ?_, ?_, ?_, jget_jset_self _ _ _⟩
    · unfold componentListHandler
      rw [hbody]
      simp only [jsProp, htv, hpage, hsize, Option.getD_some, ok_bind, hpt, hst,
        htvt, hmf, Bool.not_true, Bool.false_or, Option.isNone_some,
        Bool.or_false, Bool.false_eq_true, if_false, ite_false, hok,
        Bool.not_false, if_true, ite_true, hmd, componentTransform, hdata,
        hcomp, otruthy, hlist, jsToNumberN, hsl]
      rfl
    · rw [jget_jset_ne _ _ (by decide), jget_jset_ne _ _ (by decide),
        jget_jset_ne _ _ (by decide), jget_jset_self]
    · rw [jget_jset_ne _ _ (by decide), jget_jset_ne _ _ (by decide),
        jget_jset_self]
    · rw [jget_jset_ne _ _ (by decide), jget_jset_self]

/-- The parsed seven-card topic of `sevenTopics`. -/
def topic9 : List (String × Jval) :=
  [("id", .num 9), ("title", .str "t"),
   ("card_list", .arr [.num 1, .num 2, .num 3, .num 4, .num 5, .num 6, .num 7]),
   ("display_card_num", .num 6)]

/-- Environment whose manifest host serves a seven-component dxvk manifest
with an upstream total. -/
def envComp : Env :=
  { envTok with
    github := fun pth =>
      if pth = "/components/dxvk_manifest" then
        ⟨true, 200,
         "\x7b\"code\":0,\"data\":\x7b\"list\":[10,20,30,40,50,60,70],\"total\":7\x7d\x7d"⟩
      else ⟨true, 200, "gh-body"⟩ }

def reqComp : Request :=
  { method := "POST", path := "/simulator/v2/getComponentList", query := []
    headers := [], body := "\x7b\"type\":3,\"page\":2,\"page_size\":3\x7d" }

/-- Witness for the amended C5: the 7-item topic at page 2 size 3 yields
1-based items 4-6, page 4 yields the empty slice (no error), and the 7-item
manifest at page 2 size 3 yields items 4-6 with page/pageSize/total echoed. -/
theorem pagination_slice_window_witness :
    cardMoreHandler envSeven (reqMoreP 2) = ⟨200, .json (.obj
      [("code", .num 0), ("msg", .str ""), ("time", .str "1760000000"),
       ("data", .obj (moreDataFields (.obj topic9) (.num 2) (.num 3)
         (.arr [.num 4, .num 5, .num 6])))])⟩ ∧
    cardMoreHandler envSeven (reqMoreP 4) = ⟨200, .json (.obj
      [("code", .num 0), ("msg", .str ""), ("time", .str "1760000000"),
       ("data", .obj (moreDataFields (.obj topic9) (.num 4) (.num 3)
         (.arr [])))])⟩ ∧
    componentListHandler envComp reqComp = .ok ⟨200, .json (.obj
      [("code", .num 0),
       ("data", .obj [("list", .arr [.num 40, .num 50, .num 60]),
         ("total", .num 7), ("page", .num 2), ("pageSize", .num 3)])])⟩ := by
  refine ⟨?_, ?_, ?_⟩
  · have h := (pagination_slice_window.1 envSeven (reqMoreP 2)
      [("id", .num 9), ("page", .num 2), ("page_size", .num 3)]
      [("data", .arr [.obj topic9])] topic9 (.num 9) 2 3 sevenTopics
      [.obj topic9]
      [.num 1, .num 2, .num 3, .num 4, .num 5, .num 6, .num 7]
      rfl rfl rfl rfl (by decide) rfl (by decide) rfl rfl rfl rfl rfl).1
    rw [h]
    rfl
  · have h := (pagination_slice_window.1 envSeven (reqMoreP 4)
      [("id", .num 9), ("page", .num 4), ("page_size", .num 3)]
      [("data", .arr [.obj topic9])] topic9 (.num 9) 4 3 sevenTopics
      [.obj topic9]
      [.num 1, .num 2, .num 3, .num 4, .num 5, .num 6, .num 7]
      rfl rfl rfl rfl (by decide) rfl (by decide) rfl rfl rfl rfl rfl).1
    rw [h]
    rfl
  · have h := (pagination_slice_window.2 envComp reqComp
      [("type", .num 3), ("page", .num 2), ("page_size", .num 3)]
      [("code", .num 0), ("data", .obj
        [("list", .arr [.num 10, .num 20, .num 30, .num 40, .num 50, .num 60, .num 70]),
         ("total", .num 7)])]
      [("list", .arr [.num 10, .num 20, .num 30, .num 40, .num 50, .num 60, .num 70]),
       ("total", .num 7)]
      (.num 3) 2 3 "/components/dxvk_manifest"
      [.num 10, .num 20, .num 30, .num 40, .num 50, .num 60, .num 70]
      rfl rfl rfl rfl rfl (by decide) rfl (by decide) rfl rfl rfl rfl rfl).1
    rw [h]
    rfl

/-- Counterexample to C5 as stated: the successful /card/more response for
the 7-card topic at page 2 echoes page and page_size but carries no `total`
field at all. -/
theorem cardMore_noTotal_cex :
    cardMoreHandler envSeven (reqMoreP 2) = ⟨200, .json (.obj
      [("code", .num 0), ("msg", .str ""), ("time", .str "1760000000"),
       ("data", .obj (moreDataFields (.obj topic9) (.num 2) (.num 3)
         (.arr [.num 4, .num 5, .num 6])))])⟩ ∧
    jget (moreDataFields (.obj topic9) (.num 2) (.num 3)
      (.arr [.num 4, .num 5, .num 6])) "total" = none ∧
    jget (moreDataFields (.obj topic9) (.num 2) (.num 3)
      (.arr [.num 4, .num 5, .num 6])) "page" = some (.num 2) :=
  ⟨rfl, rfl, rfl⟩

end GH
